import Mathlib

/-!
Shallow embedding of `src/clock.js` (Zmanim countdown controller).

Times are absolute timestamps in milliseconds (`Int`, as `dayjs` instants
compared via `diff`).  The DOM display surface is a record of text/color
fields.  Timer state (interval ids returned by `setInterval`) is modelled
explicitly: `live` is the list of repeating intervals currently alive in
the host environment, `countdownInterval` is the module-level variable of
the same name, `nextId` generates the fresh (positive) ids `setInterval`
returns.  Scheduled `setTimeout` callbacks and recursive `fetchZmanim`
calls are recorded as data (`pendingFlips`, `fetchRequests`) rather than
executed, since they run in a later event-loop turn.
-/

/-- CountdownMode from clock.js: the typedef admits the two string values
used by the code, Mode.netz for the string netz and Mode.sunset for the
string sunset. -/
inductive Mode where
  | netz
  | sunset
deriving DecidableEq

/-- The ternary `targetId === 'netz' ? 'sunset' : 'netz'`, used both for the
mode flip in tick's expiry timeout and for `otherTargetId` in startCountdown. -/
def otherMode : Mode → Mode
  | Mode.netz => Mode.sunset
  | Mode.sunset => Mode.netz

/-- Display surface: one text (and, for the countdown fields, one color)
slot per DOM element the script writes.  Field names follow the element ids. -/
structure Display where
  countdownNetzText : String
  countdownNetzColor : String
  countdownSunsetText : String
  countdownSunsetColor : String
  alotHashaharTimeText : String
  sunriseTimeText : String
  sunsetTimeText : String
  currentTimeText : String
  currentDateText : String
  dateHebText : String
  dailyDafText : String
  parashaNameText : String
deriving DecidableEq

/-- Write text and color of the countdown field selected by `targetId`
(element id `countdown-netz` or `countdown-sunset`). -/
def setCountdownField (d : Display) (targetId : Mode) (text color : String) : Display :=
  match targetId with
  | Mode.netz => { d with countdownNetzText := text, countdownNetzColor := color }
  | Mode.sunset => { d with countdownSunsetText := text, countdownSunsetColor := color }

/-- Read the text of the countdown field selected by `targetId`. -/
def countdownText (d : Display) (targetId : Mode) : String :=
  match targetId with
  | Mode.netz => d.countdownNetzText
  | Mode.sunset => d.countdownSunsetText

/-- Read the color of the countdown field selected by `targetId`. -/
def countdownColor (d : Display) (targetId : Mode) : String :=
  match targetId with
  | Mode.netz => d.countdownNetzColor
  | Mode.sunset => d.countdownSunsetColor

/-- The default countdown color by target identity, the expression
`targetId === 'netz' ? 'blue' : 'orange'` appearing twice in clock.js. -/
def defaultColor : Mode → String
  | Mode.netz => "blue"
  | Mode.sunset => "orange"

/-- JavaScript `n.toString().padStart(2, '0')` for a natural number. -/
def pad2 (n : Nat) : String :=
  let s := toString n
  if s.length < 2 then "0" ++ s else s

/-- Hours component of `dayjs.duration(ms)` for a duration under one day:
`Math.floor(ms / 3600000) % 24`. -/
def durHours (ms : Nat) : Nat := ms / 3600000 % 24

/-- Minutes component of `dayjs.duration(ms)`: `Math.floor(ms / 60000) % 60`. -/
def durMinutes (ms : Nat) : Nat := ms / 60000 % 60

/-- Seconds component of `dayjs.duration(ms)`: `Math.floor(ms / 1000) % 60`. -/
def durSeconds (ms : Nat) : Nat := ms / 1000 % 60

/-- The template literal of clock.js tick's render branch, with each
component zero-padded to two digits. -/
def formatHMS (ms : Nat) : String :=
  pad2 (durHours ms) ++ ":" ++ pad2 (durMinutes ms) ++ ":" ++ pad2 (durSeconds ms)

/-- Urgency color block of tick: start from the default color by target
identity, escalate to orange at five minutes and to red at two minutes. -/
def urgencyColor (diffMs : Int) (targetId : Mode) : String :=
  if diffMs ≤ 2 * 60 * 1000 then "red"
  else if diffMs ≤ 5 * 60 * 1000 then "orange"
  else defaultColor targetId

/-- The deferred callback armed by `setTimeout(..., 5000)` in tick's expiry
branch: after `delayMs`, assign `mode := newMode` and call
`fetchZmanim(forTomorrow)` where `forTomorrow` is the test `mode === 'netz'`
on the new mode. -/
structure Flip where
  delayMs : Nat
  newMode : Mode
  forTomorrow : Bool
deriving DecidableEq

/-- The concrete Flip scheduled when the countdown toward `targetId` expires. -/
def flipOf (targetId : Mode) : Flip :=
  let m := otherMode targetId
  { delayMs := 5000, newMode := m, forTomorrow := m = Mode.netz }

/-- Result of one run of the tick closure: the display after its writes,
whether it called `clearInterval` on the stored interval id, and the
setTimeout callback it scheduled, if any. -/
structure TickResult where
  display : Display
  clearedInterval : Bool
  scheduledFlip : Option Flip
deriving DecidableEq

/-- The tick closure of startCountdown.  `diffMs = targetTime.diff(now)`;
the three branches are the expiry branch (`diffMs <= 0`), the long-range
suppression branch (`diffMs > 90 * 60 * 1000`), and the HH:MM:SS render
branch with the urgency color. -/
def tick (targetTime : Int) (targetId : Mode) (now : Int) (d : Display) : TickResult :=
  let diffMs := targetTime - now
  if diffMs ≤ 0 then
    { display := setCountdownField d targetId "עבר הזמן" "red"
      clearedInterval := true
      scheduledFlip := some (flipOf targetId) }
  else if diffMs > 90 * 60 * 1000 then
    { display := setCountdownField d targetId "--:--:--" (defaultColor targetId)
      clearedInterval := false
      scheduledFlip := none }
  else
    { display := setCountdownField d targetId (formatHMS diffMs.toNat)
        (urgencyColor diffMs targetId)
      clearedInterval := false
      scheduledFlip := none }

/-- Whole-controller state: the module-level mutable variables of clock.js
(netzTime, sunsetTime, alotHashaharTime, mode, countdownInterval), the
display surface, and the host-environment bookkeeping described in the
header (live intervals, fresh-id source, pending timeouts, emitted
recursive fetch requests).  `armedTarget` records the target time and id
captured by the closure of the currently alive repeating interval, if one
is alive. -/
structure ClockState where
  netzTime : Option Int
  sunsetTime : Option Int
  alotHashaharTime : Option Int
  mode : Mode
  countdownInterval : Nat
  display : Display
  live : List Nat
  nextId : Nat
  armedTarget : Option (Int × Mode)
  pendingFlips : List Flip
  fetchRequests : List Bool
deriving DecidableEq

/-- calculateAlotHashahar from clock.js: `netz.subtract(72, 'minutes')`,
72 minutes = 4320000 ms before the given instant. -/
def calculateAlotHashahar (netz : Int) : Int :=
  netz - 72 * 60 * 1000

/-- startCountdown from clock.js at instant `now`.  It first clears the
stored interval if the variable is truthy, returns if `targetTime` is null,
otherwise resets the other target's countdown field to the placeholder with
its default color, runs the tick closure once immediately, and arms the
repeating interval, storing the fresh id. -/
def startCountdown (targetTime : Option Int) (targetId : Mode) (now : Int)
    (s : ClockState) : ClockState :=
  let s1 :=
    if s.countdownInterval ≠ 0 then
      { s with live := s.live.erase s.countdownInterval, armedTarget := none }
    else s
  match targetTime with
  | none => s1
  | some t =>
    let other := otherMode targetId
    let d1 := setCountdownField s1.display other "--:--:--" (defaultColor other)
    let r := tick t targetId now d1
    let live2 := if r.clearedInterval then s1.live.erase s.countdownInterval else s1.live
    let flips2 := s1.pendingFlips ++ (match r.scheduledFlip with
      | some f => [f]
      | none => [])
    let id := s1.nextId
    { s1 with
      display := r.display
      live := live2 ++ [id]
      pendingFlips := flips2
      countdownInterval := id
      nextId := id + 1
      armedTarget := some (t, targetId) }

/-- handleApiError from clock.js: write the localized error markers into the
two countdown fields and the three zmanim time fields; nothing else changes. -/
def handleApiError (s : ClockState) : ClockState :=
  { s with display := { s.display with
      countdownNetzText := "שגיאת API"
      countdownSunsetText := "שגיאת API"
      alotHashaharTimeText := "שגיאה"
      sunriseTimeText := "שגיאה"
      sunsetTimeText := "שגיאה" } }

/-- The `results` object of the sunrise/sunset API response.  The localized
time-of-day strings `results.sunrise` / `results.sunset` are abstracted to
the absolute timestamps `dayjs` parses them to; a `none` field models a
missing or falsy field. -/
structure ApiResults where
  sunrise : Option Int
  sunset : Option Int
deriving DecidableEq

/-- The fetch response seen by fetchZmanim: `response.ok` and the parsed
JSON body, `none` modelling a missing or falsy `data.results`. -/
structure ApiResponse where
  ok : Bool
  results : Option ApiResults
deriving DecidableEq

/-- dayjs `format('H:mm')` on an absolute ms timestamp (hour unpadded,
minute two-digit); the local-timezone rendering is abstracted to the
canonical decomposition of the timestamp. -/
def formatHM (t : Int) : String :=
  toString (t / 3600000 % 24).toNat ++ ":" ++ pad2 (t / 60000 % 60).toNat

/-- fetchZmanim from clock.js, given the response `resp` and the instant
`now` at which the handler runs.  A non-ok response or a body missing
`results`, `results.sunrise` or `results.sunset` throws, and the catch
block calls handleApiError; no exception escapes (the function is total).
On success the three module time variables are assigned, the three time
fields are displayed, and the two-way comparison against `now` selects the
countdown to start, or — with both times passed — sets mode to netz and
re-issues `fetchZmanim(true)` (recorded in `fetchRequests`). -/
def fetchZmanim (resp : ApiResponse) (now : Int) (s : ClockState) : ClockState :=
  if resp.ok = false then handleApiError s
  else
    match resp.results with
    | none => handleApiError s
    | some r =>
      match r.sunrise, r.sunset with
      | some sunrise, some sunset =>
        let netzT := sunrise
        let sunsetT := sunset
        let alot := calculateAlotHashahar netzT
        let d := { s.display with
          alotHashaharTimeText := formatHM alot
          sunriseTimeText := formatHM netzT
          sunsetTimeText := formatHM sunsetT }
        let s2 := { s with
          netzTime := some netzT
          sunsetTime := some sunsetT
          alotHashaharTime := some alot
          display := d }
        let diffNetz := netzT - now
        let diffSunset := sunsetT - now
        if diffNetz > 0 then
          startCountdown (some netzT) Mode.netz now { s2 with mode := Mode.netz }
        else if diffSunset > 0 then
          startCountdown (some sunsetT) Mode.sunset now { s2 with mode := Mode.sunset }
        else
          { s2 with mode := Mode.netz, fetchRequests := s2.fetchRequests ++ [true] }
      | _, _ => handleApiError s

/-- Well-formedness of an API response, the conjunction of the checks
fetchZmanim performs before using the body. -/
def wellFormed (resp : ApiResponse) : Bool :=
  resp.ok && (match resp.results with
    | some r => r.sunrise.isSome && r.sunset.isSome
    | none => false)

/-- A concrete display value, used only to instantiate witnesses. -/
def initialDisplay : Display :=
  { countdownNetzText := ""
    countdownNetzColor := ""
    countdownSunsetText := ""
    countdownSunsetColor := ""
    alotHashaharTimeText := ""
    sunriseTimeText := ""
    sunsetTimeText := ""
    currentTimeText := ""
    currentDateText := ""
    dateHebText := ""
    dailyDafText := ""
    parashaNameText := "" }

/-- The initial module state of clock.js: all three times null, mode netz,
countdownInterval 0, no interval alive. -/
def initialState : ClockState :=
  { netzTime := none
    sunsetTime := none
    alotHashaharTime := none
    mode := Mode.netz
    countdownInterval := 0
    display := initialDisplay
    live := []
    nextId := 1
    armedTarget := none
    pendingFlips := []
    fetchRequests := [] }

theorem otherMode_ne (i : Mode) : otherMode i ≠ i := by
  cases i <;> simp [otherMode]

theorem countdownText_set_self (d : Display) (i : Mode) (t c : String) :
    countdownText (setCountdownField d i t c) i = t := by
  cases i <;> rfl

theorem countdownColor_set_self (d : Display) (i : Mode) (t c : String) :
    countdownColor (setCountdownField d i t c) i = c := by
  cases i <;> rfl

theorem countdownText_set_other (d : Display) (i j : Mode) (t c : String)
    (h : j ≠ i) : countdownText (setCountdownField d i t c) j = countdownText d j := by
  cases i <;> cases j <;> first
    | rfl
    | exact absurd rfl h

theorem countdownColor_set_other (d : Display) (i j : Mode) (t c : String)
    (h : j ≠ i) : countdownColor (setCountdownField d i t c) j = countdownColor d j := by
  cases i <;> cases j <;> first
    | rfl
    | exact absurd rfl h

theorem tick_color_char (t : Int) (targetId : Mode) (now : Int) (d : Display)
    (h : 0 < t - now) :
    countdownColor (tick t targetId now d).display targetId =
      urgencyColor (t - now) targetId := by
  simp only [tick]
  split_ifs with h1 h2
  · omega
  · rw [countdownColor_set_self]
    unfold urgencyColor
    split_ifs with h3 h4
    · omega
    · omega
    · rfl
  · rw [countdownColor_set_self]

theorem startCountdown_alot (tt : Option Int) (targetId : Mode) (now : Int)
    (s : ClockState) :
    (startCountdown tt targetId now s).alotHashaharTime = s.alotHashaharTime := by
  unfold startCountdown
  cases tt <;> dsimp only <;> split_ifs <;> rfl

theorem startCountdown_mode (tt : Option Int) (targetId : Mode) (now : Int)
    (s : ClockState) :
    (startCountdown tt targetId now s).mode = s.mode := by
  unfold startCountdown
  cases tt <;> dsimp only <;> split_ifs <;> rfl

/-- Claim C8: for every valid sunrise timestamp, calculateAlotHashahar
yields the sunrise time minus exactly 72 minutes (4320000 ms), and a
successful fetchZmanim refresh recomputes alotHashaharTime from the new
sunrise time by exactly this offset. -/
theorem alot_is_sunrise_minus_72min (sunrise sunset now : Int) (s : ClockState) :
    calculateAlotHashahar sunrise = sunrise - 72 * 60 * 1000 ∧
    (fetchZmanim { ok := true, results := some { sunrise := some sunrise, sunset := some sunset } }
        now s).alotHashaharTime = some (sunrise - 72 * 60 * 1000) := by
  constructor
  · rfl
  · simp only [fetchZmanim]
    norm_num
    split_ifs with h1 h2 <;> simp [startCountdown_alot, calculateAlotHashahar]

/-- Claim C2: whenever the tick closure computes remaining ≤ 0, it writes
the fixed marker into its target's countdown field, calls clearInterval on
the stored repeating interval, and schedules a 5000 ms timeout that flips
mode to the other target; flipping from the sunset target wraps to netz
with a fetch of the next day's data (forTomorrow = true), flipping from
netz goes to sunset with a same-day fetch. -/
theorem tick_expired_flips (targetTime : Int) (targetId : Mode) (now : Int)
    (d : Display) (h : targetTime - now ≤ 0) :
    countdownText (tick targetTime targetId now d).display targetId = "עבר הזמן" ∧
    countdownColor (tick targetTime targetId now d).display targetId = "red" ∧
    (tick targetTime targetId now d).clearedInterval = true ∧
    (tick targetTime targetId now d).scheduledFlip = some (flipOf targetId) ∧
    flipOf Mode.sunset = { delayMs := 5000, newMode := Mode.netz, forTomorrow := true } ∧
    flipOf Mode.netz = { delayMs := 5000, newMode := Mode.sunset, forTomorrow := false } := by
  simp only [tick]
  split_ifs
  refine ⟨?_, ?_, ?_, ?_, ?_, ?_⟩ <;>
    first
      | trivial
      | exact countdownText_set_self ..
      | exact countdownColor_set_self ..

/-- Witness for C2 at a concrete expired sunset countdown. -/
theorem tick_expired_flips_witness :
    ((1000 : Int) - 2000 ≤ 0) ∧
    (countdownText (tick 1000 Mode.sunset 2000 initialDisplay).display Mode.sunset = "עבר הזמן" ∧
     countdownColor (tick 1000 Mode.sunset 2000 initialDisplay).display Mode.sunset = "red" ∧
     (tick 1000 Mode.sunset 2000 initialDisplay).clearedInterval = true ∧
     (tick 1000 Mode.sunset 2000 initialDisplay).scheduledFlip = some (flipOf Mode.sunset) ∧
     flipOf Mode.sunset = { delayMs := 5000, newMode := Mode.netz, forTomorrow := true } ∧
     flipOf Mode.netz = { delayMs := 5000, newMode := Mode.sunset, forTomorrow := false }) :=
  ⟨by decide, tick_expired_flips 1000 Mode.sunset 2000 initialDisplay (by decide)⟩

/-- Claim C3: for a live countdown (remaining > 0), the displayed color is
the pure function of remaining and target identity given by the two-minute
and five-minute thresholds, with the default tier chosen by target identity
above five minutes (including the long-range placeholder branch). -/
theorem tick_urgency_color (targetTime : Int) (targetId : Mode) (now : Int)
    (d : Display) (h : 0 < targetTime - now) :
    countdownColor (tick targetTime targetId now d).display targetId =
      (if targetTime - now ≤ 120000 then "red"
       else if targetTime - now ≤ 300000 then "orange"
       else defaultColor targetId) := by
  rw [tick_color_char targetTime targetId now d h]
  unfold urgencyColor
  norm_num

/-- Witness for C3 in the critical tier. -/
theorem tick_urgency_color_witness :
    (0 < (61000 : Int) - 0) ∧
    countdownColor (tick 61000 Mode.netz 0 initialDisplay).display Mode.netz =
      (if (61000 : Int) - 0 ≤ 120000 then "red"
       else if (61000 : Int) - 0 ≤ 300000 then "orange"
       else defaultColor Mode.netz) :=
  ⟨by decide, tick_urgency_color 61000 Mode.netz 0 initialDisplay (by decide)⟩

/-- Claim C10: in the warning tier the sunset target's countdown color is
the string orange, which is exactly the sunset target's default color, so
the displayed color does not change when a sunset countdown crosses the
five-minute threshold; for the netz target the same crossing changes the
color (blue versus orange). -/
theorem sunset_warning_equals_default (r₁ r₂ now : Int) (d : Display)
    (h₁ : 120000 < r₁) (h₂ : r₁ ≤ 300000) (h₃ : 300000 < r₂) :
    urgencyColor r₁ Mode.sunset = "orange" ∧
    defaultColor Mode.sunset = "orange" ∧
    countdownColor (tick (now + r₁) Mode.sunset now d).display Mode.sunset =
      countdownColor (tick (now + r₂) Mode.sunset now d).display Mode.sunset ∧
    countdownColor (tick (now + r₁) Mode.netz now d).display Mode.netz ≠
      countdownColor (tick (now + r₂) Mode.netz now d).display Mode.netz := by
  have e₁ : now + r₁ - now = r₁ := by omega
  have e₂ : now + r₂ - now = r₂ := by omega
  have c₁ := tick_color_char (now + r₁) Mode.sunset now d (by omega)
  have c₂ := tick_color_char (now + r₂) Mode.sunset now d (by omega)
  have c₃ := tick_color_char (now + r₁) Mode.netz now d (by omega)
  have c₄ := tick_color_char (now + r₂) Mode.netz now d (by omega)
  rw [e₁] at c₁ c₃
  rw [e₂] at c₂ c₄
  have u₁ : urgencyColor r₁ Mode.sunset = "orange" := by
    unfold urgencyColor
    split_ifs with a b
    · omega
    · rfl
    · omega
  have u₂ : urgencyColor r₂ Mode.sunset = "orange" := by
    unfold urgencyColor
    split_ifs with a b
    · omega
    · omega
    · rfl
  have u₃ : urgencyColor r₁ Mode.netz = "orange" := by
    unfold urgencyColor
    split_ifs with a b
    · omega
    · rfl
    · omega
  have u₄ : urgencyColor r₂ Mode.netz = "blue" := by
    unfold urgencyColor
    split_ifs with a b
    · omega
    · omega
    · rfl
  refine ⟨u₁, rfl, ?_, ?_⟩
  · rw [c₁, c₂, u₁, u₂]
  · rw [c₃, c₄, u₃, u₄]
    decide

/-- Witness for C10 at remaining 200000 ms and 400000 ms. -/
theorem sunset_warning_equals_default_witness :
    ((120000 : Int) < 200000 ∧ (200000 : Int) ≤ 300000 ∧ (300000 : Int) < 400000) ∧
    (urgencyColor 200000 Mode.sunset = "orange" ∧
     defaultColor Mode.sunset = "orange" ∧
     countdownColor (tick (0 + 200000) Mode.sunset 0 initialDisplay).display Mode.sunset =
       countdownColor (tick (0 + 400000) Mode.sunset 0 initialDisplay).display Mode.sunset ∧
     countdownColor (tick (0 + 200000) Mode.netz 0 initialDisplay).display Mode.netz ≠
       countdownColor (tick (0 + 400000) Mode.netz 0 initialDisplay).display Mode.netz) :=
  ⟨⟨by decide, by decide, by decide⟩,
   sunset_warning_equals_default 200000 400000 0 initialDisplay (by decide) (by decide) (by decide)⟩

theorem pad2_len (n : Nat) (h : n < 100) : (pad2 n).length = 2 := by
  interval_cases n <;> decide

/-- Claim C4: for a tick with remaining > 0, if remaining is at most 90
minutes the rendered countdown string is the colon-separated concatenation
of the three duration components, each zero-padded to exactly two
characters; if remaining exceeds 90 minutes the rendered string is the
fixed placeholder, regardless of the color tier. -/
theorem tick_render_format (targetTime : Int) (targetId : Mode) (now : Int)
    (d : Display) (h : 0 < targetTime - now) :
    (targetTime - now ≤ 90 * 60 * 1000 →
      countdownText (tick targetTime targetId now d).display targetId =
        pad2 (durHours (targetTime - now).toNat) ++ ":" ++
        pad2 (durMinutes (targetTime - now).toNat) ++ ":" ++
        pad2 (durSeconds (targetTime - now).toNat) ∧
      (pad2 (durHours (targetTime - now).toNat)).length = 2 ∧
      (pad2 (durMinutes (targetTime - now).toNat)).length = 2 ∧
      (pad2 (durSeconds (targetTime - now).toNat)).length = 2 ∧
      (pad2 (durHours (targetTime - now).toNat) ++ ":" ++
        pad2 (durMinutes (targetTime - now).toNat) ++ ":" ++
        pad2 (durSeconds (targetTime - now).toNat)).length = 8) ∧
    (90 * 60 * 1000 < targetTime - now →
      countdownText (tick targetTime targetId now d).display targetId = "--:--:--") := by
  have hHours : durHours (targetTime - now).toNat < 24 := Nat.mod_lt _ (by omega)
  have hMin : durMinutes (targetTime - now).toNat < 60 := Nat.mod_lt _ (by omega)
  have hSec : durSeconds (targetTime - now).toNat < 60 := Nat.mod_lt _ (by omega)
  have p1 := pad2_len _ (show durHours (targetTime - now).toNat < 100 by omega)
  have p2 := pad2_len _ (show durMinutes (targetTime - now).toNat < 100 by omega)
  have p3 := pad2_len _ (show durSeconds (targetTime - now).toNat < 100 by omega)
  constructor
  · intro h90
    simp only [tick]
    split_ifs with h1 h2
    · omega
    · omega
    · refine ⟨?_, p1, p2, p3, ?_⟩
      · rw [countdownText_set_self]
        rfl
      · simp only [String.length_append, p1, p2, p3]
        decide
  · intro h90
    simp only [tick]
    split_ifs with h1
    · omega
    · rw [countdownText_set_self]

/-- Witness for C4 at remaining 61000 ms, which renders as 00:01:01. -/
theorem tick_render_format_witness :
    (0 < (61000 : Int) - 0) ∧ ((61000 : Int) - 0 ≤ 90 * 60 * 1000) ∧
    countdownText (tick 61000 Mode.netz 0 initialDisplay).display Mode.netz = "00:01:01" :=
  ⟨by decide, by decide,
    (((tick_render_format 61000 Mode.netz 0 initialDisplay (by decide)).1
      (by decide)).1).trans (by decide)⟩

/-- Claim C7: starting a countdown for one target always resets the other
target's countdown field to the neutral placeholder with that target's
default color, so at most one countdown field is live at any instant. -/
theorem startCountdown_resets_other (t : Int) (targetId : Mode) (now : Int)
    (s : ClockState) :
    countdownText (startCountdown (some t) targetId now s).display
      (otherMode targetId) = "--:--:--" ∧
    countdownColor (startCountdown (some t) targetId now s).display
      (otherMode targetId) = defaultColor (otherMode targetId) := by
  have hne := otherMode_ne targetId
  simp only [startCountdown, tick]
  split_ifs <;>
    exact ⟨by rw [countdownText_set_other _ _ _ _ _ hne, countdownText_set_self],
           by rw [countdownColor_set_other _ _ _ _ _ hne, countdownColor_set_self]⟩

/-- Claim C9: calling startCountdown with a null target time clears the
stored interval if one was armed and returns before touching the display:
every display field, the mode, the three time variables, the stored
interval id, the fresh-id source, the pending timeouts and the emitted
fetch requests are unchanged; only the set of live intervals shrinks. -/
theorem startCountdown_null_frame (targetId : Mode) (now : Int) (s : ClockState) :
    (startCountdown none targetId now s).display = s.display ∧
    (startCountdown none targetId now s).mode = s.mode ∧
    (startCountdown none targetId now s).netzTime = s.netzTime ∧
    (startCountdown none targetId now s).sunsetTime = s.sunsetTime ∧
    (startCountdown none targetId now s).alotHashaharTime = s.alotHashaharTime ∧
    (startCountdown none targetId now s).countdownInterval = s.countdownInterval ∧
    (startCountdown none targetId now s).nextId = s.nextId ∧
    (startCountdown none targetId now s).pendingFlips = s.pendingFlips ∧
    (startCountdown none targetId now s).fetchRequests = s.fetchRequests ∧
    (startCountdown none targetId now s).live =
      (if s.countdownInterval ≠ 0 then s.live.erase s.countdownInterval else s.live) := by
  simp only [startCountdown]
  split_ifs <;>
    exact ⟨rfl, rfl, rfl, rfl, rfl, rfl, rfl, rfl, rfl, rfl⟩

theorem erase_all_eq_nil (l : List Nat) (a : Nat) (hlen : l.length ≤ 1)
    (h : ∀ x ∈ l, x = a) : l.erase a = [] := by
  match l with
  | [] => rfl
  | [x] =>
    have hx : x = a := h x (by simp)
    subst hx
    simp
  | x :: y :: t => simp at hlen

/-- The timer-handle invariant of clock.js: at most one repeating interval
is alive, it is the one whose (nonzero) id is stored in countdownInterval,
and ids handed out by setInterval grow past the stored one. -/
def timerInv (s : ClockState) : Prop :=
  s.live.length ≤ 1 ∧ (∀ x ∈ s.live, x = s.countdownInterval ∧ x ≠ 0) ∧
  s.countdownInterval < s.nextId

/-- Claim C6: startCountdown first cancels the stored interval (if any)
synchronously, so after any call at most one repeating interval is alive,
the invariant is preserved, and the previously stored interval is no
longer alive — no two ticks ever run concurrently. -/
theorem startCountdown_single_interval (tt : Option Int) (targetId : Mode)
    (now : Int) (s : ClockState) (h : timerInv s) :
    timerInv (startCountdown tt targetId now s) ∧
    (startCountdown tt targetId now s).live.length ≤ 1 ∧
    s.countdownInterval ∉ (startCountdown tt targetId now s).live := by
  obtain ⟨hlen, hall, hlt⟩ := h
  have hnil0 : s.countdownInterval = 0 → s.live = [] := by
    intro hc
    refine List.eq_nil_iff_forall_not_mem.mpr fun x hx => ?_
    have hx2 := hall x hx
    exact hx2.2 (hx2.1.trans hc)
  have hnilE : s.live.erase s.countdownInterval = [] :=
    erase_all_eq_nil _ _ hlen fun x hx => (hall x hx).1
  cases tt with
  | none =>
    simp only [startCountdown]
    split_ifs with hc
    · refine ⟨⟨?_, ?_, ?_⟩, ?_, ?_⟩ <;> simp [timerInv, hnilE, hlt]
    · push_neg at hc
      refine ⟨⟨?_, ?_, ?_⟩, ?_, ?_⟩ <;> simp [timerInv, hnil0 hc, hlt]
  | some t =>
    have hres : (startCountdown (some t) targetId now s).live = [s.nextId] ∧
        (startCountdown (some t) targetId now s).countdownInterval = s.nextId ∧
        (startCountdown (some t) targetId now s).nextId = s.nextId + 1 := by
      simp only [startCountdown]
      split_ifs with hc h2 h2 <;>
        simp_all [hnilE, List.erase_nil, hnil0]
    obtain ⟨hl, hci, hni⟩ := hres
    refine ⟨⟨?_, ?_, ?_⟩, ?_, ?_⟩
    · rw [hl]
      simp
    · rw [hl, hci]
      intro x hx
      simp at hx
      subst hx
      exact ⟨rfl, by omega⟩
    · rw [hci, hni]
      omega
    · rw [hl]
      simp
    · rw [hl]
      simp
      omega

/-- Witness for C6 from the initial module state. -/
theorem startCountdown_single_interval_witness :
    timerInv initialState ∧
    (timerInv (startCountdown (some 5) Mode.netz 0 initialState) ∧
     (startCountdown (some 5) Mode.netz 0 initialState).live.length ≤ 1 ∧
     initialState.countdownInterval ∉
       (startCountdown (some 5) Mode.netz 0 initialState).live) := by
  have hinv : timerInv initialState := by
    refine ⟨by decide, ?_, by decide⟩
    intro x hx
    simp [initialState] at hx
  exact ⟨hinv, startCountdown_single_interval (some 5) Mode.netz 0 initialState hinv⟩

theorem startCountdown_armedTarget (t : Int) (targetId : Mode) (now : Int)
    (s : ClockState) :
    (startCountdown (some t) targetId now s).armedTarget = some (t, targetId) := by
  simp only [startCountdown]

/-- Claim C1: on a successful refresh with a well-formed response the mode
and countdown are chosen by the two-way comparison against now: a future
sunrise selects mode netz with a countdown armed toward the sunrise time;
otherwise a future sunset selects mode sunset with a countdown armed toward
the sunset time; otherwise mode is set to netz, a fetch of the next day's
data is issued, and no countdown is armed (the timer state is untouched). -/
theorem fetchZmanim_mode_selection (sunrise sunset now : Int) (s : ClockState) :
    (0 < sunrise - now →
      (fetchZmanim { ok := true, results := some { sunrise := some sunrise, sunset := some sunset } }
          now s).mode = Mode.netz ∧
      (fetchZmanim { ok := true, results := some { sunrise := some sunrise, sunset := some sunset } }
          now s).armedTarget = some (sunrise, Mode.netz)) ∧
    (sunrise - now ≤ 0 → 0 < sunset - now →
      (fetchZmanim { ok := true, results := some { sunrise := some sunrise, sunset := some sunset } }
          now s).mode = Mode.sunset ∧
      (fetchZmanim { ok := true, results := some { sunrise := some sunrise, sunset := some sunset } }
          now s).armedTarget = some (sunset, Mode.sunset)) ∧
    (sunrise - now ≤ 0 → sunset - now ≤ 0 →
      (fetchZmanim { ok := true, results := some { sunrise := some sunrise, sunset := some sunset } }
          now s).mode = Mode.netz ∧
      (fetchZmanim { ok := true, results := some { sunrise := some sunrise, sunset := some sunset } }
          now s).fetchRequests = s.fetchRequests ++ [true] ∧
      (fetchZmanim { ok := true, results := some { sunrise := some sunrise, sunset := some sunset } }
          now s).countdownInterval = s.countdownInterval ∧
      (fetchZmanim { ok := true, results := some { sunrise := some sunrise, sunset := some sunset } }
          now s).live = s.live ∧
      (fetchZmanim { ok := true, results := some { sunrise := some sunrise, sunset := some sunset } }
          now s).nextId = s.nextId ∧
      (fetchZmanim { ok := true, results := some { sunrise := some sunrise, sunset := some sunset } }
          now s).armedTarget = s.armedTarget) := by
  refine ⟨?_, ?_, ?_⟩
  · intro h1
    simp only [fetchZmanim]
    norm_num
    split_ifs with g1 g2
    · exact ⟨(startCountdown_mode ..).trans rfl, startCountdown_armedTarget ..⟩
    · omega
    · omega
  · intro h1 h2
    simp only [fetchZmanim]
    norm_num
    split_ifs with g1 g2
    · omega
    · exact ⟨(startCountdown_mode ..).trans rfl, startCountdown_armedTarget ..⟩
    · omega
  · intro h1 h2
    simp only [fetchZmanim]
    norm_num
    split_ifs with g1 g2
    · omega
    · omega
    · exact ⟨rfl, rfl, rfl, rfl, rfl, rfl⟩

/-- Witness for C1 covering the three branches of the comparison. -/
theorem fetchZmanim_mode_selection_witness :
    ((0 < (100 : Int) - 50) ∧
     (fetchZmanim { ok := true, results := some { sunrise := some 100, sunset := some 200 } }
         50 initialState).mode = Mode.netz ∧
     (fetchZmanim { ok := true, results := some { sunrise := some 100, sunset := some 200 } }
         50 initialState).armedTarget = some (100, Mode.netz)) ∧
    (((100 : Int) - 150 ≤ 0) ∧ (0 < (200 : Int) - 150) ∧
     (fetchZmanim { ok := true, results := some { sunrise := some 100, sunset := some 200 } }
         150 initialState).mode = Mode.sunset ∧
     (fetchZmanim { ok := true, results := some { sunrise := some 100, sunset := some 200 } }
         150 initialState).armedTarget = some (200, Mode.sunset)) ∧
    (((100 : Int) - 300 ≤ 0) ∧ ((200 : Int) - 300 ≤ 0) ∧
     (fetchZmanim { ok := true, results := some { sunrise := some 100, sunset := some 200 } }
         300 initialState).mode = Mode.netz ∧
     (fetchZmanim { ok := true, results := some { sunrise := some 100, sunset := some 200 } }
         300 initialState).fetchRequests = initialState.fetchRequests ++ [true]) :=
  ⟨⟨by decide,
    (fetchZmanim_mode_selection 100 200 50 initialState).1 (by decide)⟩,
   ⟨by decide, by decide,
    (fetchZmanim_mode_selection 100 200 150 initialState).2.1 (by decide) (by decide)⟩,
   ⟨by decide, by decide,
    ((fetchZmanim_mode_selection 100 200 300 initialState).2.2 (by decide) (by decide)).1,
    ((fetchZmanim_mode_selection 100 200 300 initialState).2.2 (by decide) (by decide)).2.1⟩⟩

/-- Claim C5: every fetch failure — a non-ok response or a body missing
results, results.sunrise or results.sunset — is converted by the catch
block into handleApiError, which writes the fixed localized error markers
into exactly the five dependent fields (the two countdown fields and the
three zmanim time fields), leaves every other display field and the
clock/date fields untouched, arms no countdown, changes no timer state,
issues no retry, and lets no exception escape (fetchZmanim is total). -/
theorem fetchZmanim_failure_frame (resp : ApiResponse) (now : Int) (s : ClockState)
    (h : wellFormed resp = false) :
    fetchZmanim resp now s = handleApiError s ∧
    (fetchZmanim resp now s).display.countdownNetzText = "שגיאת API" ∧
    (fetchZmanim resp now s).display.countdownSunsetText = "שגיאת API" ∧
    (fetchZmanim resp now s).display.alotHashaharTimeText = "שגיאה" ∧
    (fetchZmanim resp now s).display.sunriseTimeText = "שגיאה" ∧
    (fetchZmanim resp now s).display.sunsetTimeText = "שגיאה" ∧
    (fetchZmanim resp now s).display.countdownNetzColor = s.display.countdownNetzColor ∧
    (fetchZmanim resp now s).display.countdownSunsetColor = s.display.countdownSunsetColor ∧
    (fetchZmanim resp now s).display.currentTimeText = s.display.currentTimeText ∧
    (fetchZmanim resp now s).display.currentDateText = s.display.currentDateText ∧
    (fetchZmanim resp now s).display.dateHebText = s.display.dateHebText ∧
    (fetchZmanim resp now s).display.dailyDafText = s.display.dailyDafText ∧
    (fetchZmanim resp now s).display.parashaNameText = s.display.parashaNameText ∧
    (fetchZmanim resp now s).mode = s.mode ∧
    (fetchZmanim resp now s).netzTime = s.netzTime ∧
    (fetchZmanim resp now s).sunsetTime = s.sunsetTime ∧
    (fetchZmanim resp now s).alotHashaharTime = s.alotHashaharTime ∧
    (fetchZmanim resp now s).countdownInterval = s.countdownInterval ∧
    (fetchZmanim resp now s).live = s.live ∧
    (fetchZmanim resp now s).nextId = s.nextId ∧
    (fetchZmanim resp now s).armedTarget = s.armedTarget ∧
    (fetchZmanim resp now s).pendingFlips = s.pendingFlips ∧
    (fetchZmanim resp now s).fetchRequests = s.fetchRequests := by
  have heq : fetchZmanim resp now s = handleApiError s := by
    unfold fetchZmanim
    unfold wellFormed at h
    cases hok : resp.ok with
    | false => simp [hok]
    | true =>
      cases hres : resp.results with
      | none => simp [hok, hres]
      | some r =>
        cases hsr : r.sunrise with
        | none => simp [hok, hres, hsr]
        | some a =>
          cases hss : r.sunset with
          | none => simp [hok, hres, hsr, hss]
          | some b =>
            rw [hok, hres] at h
            simp [hsr, hss] at h
  rw [heq]
  exact ⟨rfl, rfl, rfl, rfl, rfl, rfl, rfl, rfl, rfl, rfl, rfl, rfl, rfl, rfl, rfl,
    rfl, rfl, rfl, rfl, rfl, rfl, rfl, rfl⟩

/-- Witness for C5 at an HTTP failure. -/
theorem fetchZmanim_failure_frame_witness :
    wellFormed { ok := false, results := none } = false ∧
    fetchZmanim { ok := false, results := none } 0 initialState =
      handleApiError initialState :=
  ⟨rfl, (fetchZmanim_failure_frame { ok := false, results := none } 0 initialState rfl).1⟩
